import Mathlib

/-!
Shallow embedding of the reminder scheduling and notification subsystem of
the MR!JK! assistant application (`src/services/notifications.ts`,
`src/hooks/useAppState.ts`, `src/services/storage.ts`), together with
theorems settling the specification claims about it.

Time is modelled in minutes since an epoch; a calendar day is 1440 minutes.
JavaScript 32-bit integer coercions are modelled explicitly on `Int`.
-/

namespace MrJk

/-- Reminder type: `event` fires once, `daily` repeats (src/types, `Reminder.type`). -/
inductive ReminderType
  | event
  | daily
deriving DecidableEq

/-- Reminder category (src/types): classification only, no scheduling effect. -/
inductive Category
  | task
  | ctf
  | personal
  | work
deriving DecidableEq

/-- The `Reminder` record from `src/types`, with `datetime` as minutes since epoch. -/
structure Reminder where
  id : String
  title : String
  datetime : Nat
  completed : Bool
  category : Category
  rtype : ReminderType
deriving DecidableEq

/-- Minutes in one calendar day; the model's day length. -/
def minutesPerDay : Nat := 1440

/-- Time-of-day component of an instant (minutes past local midnight). -/
def timeOfDay (t : Nat) : Nat := t % minutesPerDay

/-- Calendar-day index of an instant. -/
def dayOf (t : Nat) : Nat := t / minutesPerDay

/-- JavaScript `| 0` / `ToInt32`: reduce an integer into `[-2^31, 2^31)`. -/
def toInt32 (n : Int) : Int :=
  let m := n % 4294967296
  if m < 2147483648 then m else m - 4294967296

/-- One step of the string hash in `generateDailyNotificationId`:
`hash = ((hash << 5) - hash) + char; hash = hash & hash` (`notifications.ts:300-305`).
`hash << 5` coerces to int32 and so does the final `& hash`. -/
def hashStep (hash : Int) (char : Nat) : Int :=
  toInt32 (toInt32 (hash * 32) - hash + (char : Int))

/-- The full string hash folded over the id's character codes, starting from 0. -/
def stringHash (s : String) : Int :=
  s.toList.foldl (fun h c => hashStep h c.toNat) 0

/-- `generateDailyNotificationId` (`notifications.ts:299-307`): fixed id for daily
reminders, `Math.abs(hash) % 100000`. -/
def generateDailyNotificationId (reminderId : String) : Nat :=
  (stringHash reminderId).natAbs % 100000

/-- `generateNotificationId` (`notifications.ts:310-312`): counter/random based id
for event reminders, `100000 + counter*1000 + Math.floor(Math.random()*1000)`.
`counter` is the scheduler's mutable `notificationCounter`, `rand` the random
draw in `[0, 999]`. -/
def generateNotificationId (counter : Nat) (rand : Nat) : Nat :=
  100000 + counter * 1000 + rand

/-- The notification id chosen by `scheduleReminder` (`notifications.ts:146-149`):
the fixed hash for daily reminders, the counter/random id for event reminders. -/
def notificationIdFor (rtype : ReminderType) (id : String) (counter rand : Nat) : Nat :=
  match rtype with
  | ReminderType.daily => generateDailyNotificationId id
  | ReminderType.event => generateNotificationId counter rand

/-- Result of the fire-instant computation at the top of `scheduleReminder`. -/
inductive TriggerResult
  | refused
  | fireAt (t : Nat)
deriving DecidableEq

/-- Fire-instant computation of `scheduleReminder` (`notifications.ts:127-140`):
a daily reminder whose time has passed is moved one day later (`setDate(+1)`);
a past non-daily reminder is refused (the function returns the sentinel 0);
otherwise the stored datetime is used verbatim. -/
def computeTrigger (rtype : ReminderType) (datetime now : Nat) : TriggerResult :=
  if rtype = ReminderType.daily ∧ datetime ≤ now then
    TriggerResult.fireAt (datetime + minutesPerDay)
  else if datetime ≤ now then
    TriggerResult.refused
  else
    TriggerResult.fireAt datetime

/-- `rescheduleDaily`'s datetime normalisation (`notifications.ts:240-248`):
stamp the stored time-of-day onto today's date, then move one day later if
that instant has already passed. -/
def rescheduleDailyTime (datetime now : Nat) : Nat :=
  if dayOf now * minutesPerDay + timeOfDay datetime ≤ now then
    dayOf now * minutesPerDay + timeOfDay datetime + minutesPerDay
  else
    dayOf now * minutesPerDay + timeOfDay datetime

/-- The fire instant carried by a trigger result; the sentinel 0 (the value
`scheduleReminder` returns without scheduling) for a refused trigger. -/
def TriggerResult.instant : TriggerResult → Nat
  | TriggerResult.refused => 0
  | TriggerResult.fireAt t => t

/-- Which delivery backend is active: `native` when the Capacitor global is
present, `web` otherwise (`typeof window.Capacitor !== 'undefined'`). -/
inductive Backend
  | native
  | web
deriving DecidableEq

/-- An entry of the scheduler's `pendingNotifications` map (`notifications.ts:6-8`). -/
inductive Pending
  | capacitor (notificationId : Nat)
  | webTimer (timeoutId : Nat)
deriving DecidableEq

/-- Mutable state of the notification service: the `pendingNotifications` map
(association list keyed by reminder id) and `notificationCounter`. -/
structure SchedulerState where
  pendingNotifications : List (String × Pending)
  notificationCounter : Nat
deriving DecidableEq

/-- `Map.get` on the pending map. -/
def lookupPending (m : List (String × Pending)) (id : String) : Option Pending :=
  (m.find? (fun p => p.fst = id)).map Prod.snd

/-- `Map.delete` on the pending map. -/
def erasePending (m : List (String × Pending)) (id : String) : List (String × Pending) :=
  m.filter (fun p => p.fst ≠ id)

/-- `Map.set` on the pending map. -/
def setPending (m : List (String × Pending)) (id : String) (p : Pending) :
    List (String × Pending) :=
  (id, p) :: erasePending m id

/-- Observable effects of one `cancelReminder` call: notification ids passed to
the platform `LocalNotifications.cancel`, and web timer ids cleared. -/
structure CancelEffects where
  nativeCancels : List Nat
  clearedTimers : List Nat
deriving DecidableEq

/-- No cancellation effects. -/
def CancelEffects.none : CancelEffects := { nativeCancels := [], clearedTimers := [] }

/-- `cancelReminder` (`notifications.ts:254-275`): look up the pending entry for
the id; when on the native backend and the entry is a Capacitor notification,
cancel that platform handle; when the entry is a web timer, clear it; finally
delete the map entry. -/
def cancelReminder (backend : Backend) (st : SchedulerState) (id : String) :
    SchedulerState × CancelEffects :=
  let pending := lookupPending st.pendingNotifications id
  let nc : List Nat :=
    match backend, pending with
    | Backend.native, some (Pending.capacitor nid) => [nid]
    | _, _ => []
  let wc : List Nat :=
    match pending with
    | some (Pending.webTimer tid) => [tid]
    | _ => []
  ({ st with pendingNotifications := erasePending st.pendingNotifications id },
   { nativeCancels := nc, clearedTimers := wc })

/-- The `schedule` field handed to the platform scheduler. Capacitor's
`LocalNotifications.schedule` accepts either a one-shot `schedule: { at }` or a
repeating `schedule: { every }` form (spec §6: `repeat: none|daily`); the
source constructs only the one-shot form (`notifications.ts:175`). -/
inductive NativeSchedule
  | once (t : Nat)
  | repeating (everyMinutes : Nat) (t : Nat)
deriving DecidableEq

/-- Whether a platform schedule is a repeating one. -/
def NativeSchedule.isRepeating : NativeSchedule → Bool
  | NativeSchedule.once _ => false
  | NativeSchedule.repeating _ _ => true

/-- Environment of one `scheduleReminder` call: backend, current time, the
outcome of the native permission check/request, whether the platform
`LocalNotifications.schedule` call succeeds, the `Math.random` draw for the
event notification id, and the handle `window.setTimeout` would return. -/
structure ScheduleInput where
  backend : Backend
  now : Nat
  permissionGranted : Bool
  platformOk : Bool
  rand : Nat
  timeoutId : Nat
deriving DecidableEq

/-- The value `scheduleReminder` returns to its caller. -/
inductive ScheduleOutcome
  | notScheduled
  | nativeHandle (notificationId : Nat)
  | webHandle (timeoutId : Nat)
deriving DecidableEq

/-- Full result of one `scheduleReminder` call: return value, post state, the
effects of its internal `cancelReminder` call, the platform arm request (if
any), the in-page timer arm (if any, with its possibly negative delay), and
whether the call rejects to its caller. -/
structure ScheduleResult where
  outcome : ScheduleOutcome
  state : SchedulerState
  cancels : CancelEffects
  nativeArm : Option (Nat × NativeSchedule)
  webArm : Option (Nat × Int)
  threw : Bool
deriving DecidableEq

/-- `scheduleWebNotification` (`notifications.ts:207-235`): arm an in-page
timer with the given delay, record it in the pending map, return the timer id. -/
def scheduleWebNotification (st : SchedulerState) (r : Reminder) (delay : Int)
    (cancels : CancelEffects) (timeoutId : Nat) : ScheduleResult :=
  let m := setPending st.pendingNotifications r.id (Pending.webTimer timeoutId)
  { outcome := ScheduleOutcome.webHandle timeoutId,
    state := { st with pendingNotifications := m },
    cancels := cancels,
    nativeArm := Option.none,
    webArm := some (timeoutId, delay),
    threw := false }

/-- `scheduleReminder` (`notifications.ts:124-205`): compute the trigger
instant (refusing past non-daily reminders with the sentinel), cancel any
existing notification for the id, derive the notification id (incrementing
the counter for event reminders), then either arm a one-shot platform
notification (native backend with permission; on platform failure the error
is caught and the web path is used instead) or arm an in-page timer. -/
def scheduleReminder (st : SchedulerState) (r : Reminder) (inp : ScheduleInput) :
    ScheduleResult :=
  match computeTrigger r.rtype r.datetime inp.now with
  | TriggerResult.refused =>
      { outcome := ScheduleOutcome.notScheduled, state := st,
        cancels := CancelEffects.none,
        nativeArm := Option.none, webArm := Option.none, threw := false }
  | TriggerResult.fireAt actualTriggerTime =>
      let step := cancelReminder inp.backend st r.id
      let st1 := step.fst
      let ceff := step.snd
      let notificationId := notificationIdFor r.rtype r.id st1.notificationCounter inp.rand
      let st2 :=
        match r.rtype with
        | ReminderType.daily => st1
        | ReminderType.event =>
            { st1 with notificationCounter := st1.notificationCounter + 1 }
      match inp.backend with
      | Backend.native =>
          if inp.permissionGranted then
            if inp.platformOk then
              let m := setPending st2.pendingNotifications r.id
                (Pending.capacitor notificationId)
              { outcome := ScheduleOutcome.nativeHandle notificationId,
                state := { st2 with pendingNotifications := m },
                cancels := ceff,
                nativeArm := some (notificationId, NativeSchedule.once actualTriggerTime),
                webArm := Option.none, threw := false }
            else
              scheduleWebNotification st2 r
                ((actualTriggerTime : Int) - (inp.now : Int)) ceff inp.timeoutId
          else
            { outcome := ScheduleOutcome.notScheduled, state := st2,
              cancels := ceff,
              nativeArm := Option.none, webArm := Option.none, threw := false }
      | Backend.web =>
          scheduleWebNotification st2 r
            ((actualTriggerTime : Int) - (inp.now : Int)) ceff inp.timeoutId

/-- `rescheduleDaily` (`notifications.ts:237-252`): for daily reminders,
normalise the datetime onto today (or tomorrow), clear `completed`, and
re-run `scheduleReminder`; non-daily reminders are left untouched. -/
def rescheduleDaily (st : SchedulerState) (r : Reminder) (inp : ScheduleInput) :
    ScheduleResult :=
  if r.rtype = ReminderType.daily then
    scheduleReminder st
      { r with datetime := rescheduleDailyTime r.datetime inp.now, completed := false }
      inp
  else
    { outcome := ScheduleOutcome.notScheduled, state := st,
      cancels := CancelEffects.none,
      nativeArm := Option.none, webArm := Option.none, threw := false }

/-- Application-level state touched by the Daily Rollover Coordinator: the
reminder list and the persisted last-rollover date marker
(`storage.ts:169-176`, a calendar-date string or absent). -/
structure AppState where
  reminders : List Reminder
  lastDailyReset : Option String
deriving DecidableEq

/-- Observable effects of one `checkDailyReset` pass: number of persisted
store writes (`saveReminders` + `setLastDailyReset`), reminder ids whose
platform notification was cancelled, and ids passed to `rescheduleDaily`. -/
structure ResetEffects where
  storeWrites : Nat
  cancelledIds : List String
  rescheduledIds : List String
deriving DecidableEq

/-- No rollover effects. -/
def ResetEffects.none : ResetEffects :=
  { storeWrites := 0, cancelledIds := [], rescheduledIds := [] }

/-- Re-stamp used by `checkDailyReset` (`useAppState.ts:43-46`): a daily
reminder keeps its time-of-day but its date becomes today's, and
`completed` resets to false; other reminders are untouched. -/
def rolloverStamp (now : Nat) (r : Reminder) : Reminder :=
  if r.rtype = ReminderType.daily then
    { r with completed := false,
             datetime := dayOf now * minutesPerDay + timeOfDay r.datetime }
  else r

/-- Whether `checkDailyReset` drops a reminder as an expired event
(`useAppState.ts:52-58`): event type with datetime strictly before now. -/
def isExpiredEvent (now : Nat) (r : Reminder) : Bool :=
  r.rtype = ReminderType.event ∧ r.datetime < now

/-- `checkDailyReset` (`useAppState.ts:36-68`), one pass of the Daily
Rollover Coordinator: if the persisted marker already equals today's date,
do nothing; otherwise re-stamp daily reminders to today and uncomplete them,
cancel and drop expired event reminders, persist the list and today's
marker, and re-arm every uncompleted daily reminder. `today` is the
calendar-date string of `now`. -/
def checkDailyReset (st : AppState) (today : String) (now : Nat) :
    AppState × ResetEffects :=
  if st.lastDailyReset = some today then
    (st, ResetEffects.none)
  else
    let updated := st.reminders.map (rolloverStamp now)
    let cancelled := (updated.filter (fun r => isExpiredEvent now r)).map Reminder.id
    let filtered := updated.filter (fun r => ¬ isExpiredEvent now r)
    let resched :=
      (filtered.filter
        (fun r => r.rtype = ReminderType.daily ∧ r.completed = false)).map Reminder.id
    ({ reminders := filtered, lastDailyReset := some today },
     { storeWrites := 2, cancelledIds := cancelled, rescheduledIds := resched })

/-- The notification side effect `toggleReminder` requests after flipping
the completed flag. -/
inductive ToggleAction
  | noAction
  | cancelFor (id : String)
  | rescheduleFor (id : String)
deriving DecidableEq

/-- `toggleReminder` (`useAppState.ts:320-335`): find the reminder; flip the
`completed` flag of every entry with that id in the stored list; then, if
the reminder was uncompleted, cancel its notification; if it was a
completed daily reminder, re-arm it via `rescheduleDaily`; a completed
event reminder gets no notification call. An unknown id changes nothing. -/
def toggleReminder (reminders : List Reminder) (id : String) :
    List Reminder × ToggleAction :=
  match reminders.find? (fun r => r.id = id) with
  | Option.none => (reminders, ToggleAction.noAction)
  | some reminder =>
      let updated := reminders.map (fun r =>
        if r.id = id then { r with completed := !r.completed } else r)
      let action :=
        if !reminder.completed then ToggleAction.cancelFor id
        else if reminder.rtype = ReminderType.daily then ToggleAction.rescheduleFor id
        else ToggleAction.noAction
      (updated, action)

/-! Helper lemmas shared by the claim theorems. -/

/-- A daily reminder's trigger is never refused: it is the stored datetime,
advanced one day when already passed. -/
theorem computeTrigger_daily (d n : Nat) :
    computeTrigger ReminderType.daily d n =
      TriggerResult.fireAt (if d ≤ n then d + minutesPerDay else d) := by
  by_cases h : d ≤ n <;> simp [computeTrigger, h]

/-- On the native backend with permission and a working platform, scheduling a
daily reminder returns the hash-derived handle and arms a one-shot platform
notification. -/
theorem scheduleReminder_daily_native (st : SchedulerState) (r : Reminder)
    (inp : ScheduleInput) (ht : r.rtype = ReminderType.daily)
    (hb : inp.backend = Backend.native) (hp : inp.permissionGranted = true)
    (hk : inp.platformOk = true) :
    (scheduleReminder st r inp).outcome =
      ScheduleOutcome.nativeHandle (generateDailyNotificationId r.id) ∧
    ∃ t, (scheduleReminder st r inp).nativeArm =
      some (generateDailyNotificationId r.id, NativeSchedule.once t) := by
  have h1 := computeTrigger_daily r.datetime inp.now
  unfold scheduleReminder
  rw [ht, h1, hb]
  simp [hp, hk, notificationIdFor]

/-- Mapping a function over a list relates the list to its image pointwise. -/
theorem forall2_map_self {α : Type} (P : α → α → Prop) (f : α → α) (l : List α)
    (h : ∀ x, P x (f x)) : List.Forall₂ P l (l.map f) := by
  induction l with
  | nil => exact List.Forall₂.nil
  | cons a t ih => exact List.Forall₂.cons (h a) ih

/-! Claim theorems. -/

/-- C1, counterexample: two `scheduleReminder` calls for the same event
reminder (same id, same type) from the same scheduler state, differing only
in the `Math.random` draw, return different platform handles — the event
handle is not a deterministic function of the reminder's id and type. -/
theorem event_handle_not_deterministic_cex :
    (scheduleReminder ⟨[], 1⟩ ⟨"r1", "t", 2000, false, Category.task, ReminderType.event⟩
        ⟨Backend.native, 0, true, true, 0, 7⟩).outcome ≠
    (scheduleReminder ⟨[], 1⟩ ⟨"r1", "t", 2000, false, Category.task, ReminderType.event⟩
        ⟨Backend.native, 0, true, true, 1, 7⟩).outcome := by
  decide

/-- C1 (amended): only daily reminders get a handle that is a deterministic
pure function of the reminder id — any two successful native schedule calls
for daily reminders with the same id agree on the handle, across scheduler
states, process lifetimes and random draws; the event handle depends on the
in-process counter and a fresh random draw and is not reproducible. -/
theorem daily_handle_deterministic_event_not (r r' : Reminder)
    (st st' : SchedulerState) (inp inp' : ScheduleInput)
    (hid : r.id = r'.id)
    (ht : r.rtype = ReminderType.daily) (ht' : r'.rtype = ReminderType.daily)
    (hb : inp.backend = Backend.native) (hb' : inp'.backend = Backend.native)
    (hp : inp.permissionGranted = true) (hp' : inp'.permissionGranted = true)
    (hk : inp.platformOk = true) (hk' : inp'.platformOk = true) :
    (scheduleReminder st r inp).outcome = (scheduleReminder st' r' inp').outcome ∧
    notificationIdFor ReminderType.event "r1" 1 0 ≠
      notificationIdFor ReminderType.event "r1" 1 1 := by
  refine ⟨?_, by decide⟩
  rw [(scheduleReminder_daily_native st r inp ht hb hp hk).1,
      (scheduleReminder_daily_native st' r' inp' ht' hb' hp' hk').1, hid]

/-- C1, witness: two daily schedules for id `r1` from different states,
counters and random draws return the same handle. -/
theorem daily_handle_deterministic_event_not_witness :
    (scheduleReminder ⟨[], 1⟩ ⟨"r1", "t", 0, false, Category.task, ReminderType.daily⟩
        ⟨Backend.native, 50, true, true, 3, 7⟩).outcome =
    (scheduleReminder ⟨[("r1", Pending.webTimer 9)], 42⟩
        ⟨"r1", "u", 5000, true, Category.work, ReminderType.daily⟩
        ⟨Backend.native, 99, true, true, 8, 2⟩).outcome :=
  (daily_handle_deterministic_event_not
      ⟨"r1", "t", 0, false, Category.task, ReminderType.daily⟩
      ⟨"r1", "u", 5000, true, Category.work, ReminderType.daily⟩
      ⟨[], 1⟩ ⟨[("r1", Pending.webTimer 9)], 42⟩
      ⟨Backend.native, 50, true, true, 3, 7⟩
      ⟨Backend.native, 99, true, true, 8, 2⟩
      rfl rfl rfl rfl rfl rfl rfl rfl rfl).1

/-- C2, counterexample: on the native backend with permission granted, when
the platform scheduling call fails, `scheduleReminder` does not reject — it
falls back to arming an in-page web timer and returns its handle. -/
theorem native_failure_fallback_cex :
    (scheduleReminder ⟨[], 1⟩ ⟨"r1", "t", 2000, false, Category.task, ReminderType.event⟩
        ⟨Backend.native, 0, true, false, 0, 7⟩).threw = false ∧
    (scheduleReminder ⟨[], 1⟩ ⟨"r1", "t", 2000, false, Category.task, ReminderType.event⟩
        ⟨Backend.native, 0, true, false, 0, 7⟩).webArm = some (7, 2000) := by
  decide

/-- C2 (amended): on the native backend, a platform scheduling failure is
caught and the scheduler falls back to arming an in-page web timer for the
reminder, returning the timer handle; the failure is not surfaced to the
caller. -/
theorem native_failure_falls_back (st : SchedulerState) (r : Reminder)
    (inp : ScheduleInput) (hb : inp.backend = Backend.native)
    (hp : inp.permissionGranted = true) (hk : inp.platformOk = false)
    (hfut : inp.now < r.datetime) :
    (scheduleReminder st r inp).outcome = ScheduleOutcome.webHandle inp.timeoutId ∧
    (scheduleReminder st r inp).webArm =
      some (inp.timeoutId, (r.datetime : Int) - (inp.now : Int)) ∧
    (scheduleReminder st r inp).threw = false := by
  have h1 : computeTrigger r.rtype r.datetime inp.now = TriggerResult.fireAt r.datetime := by
    simp [computeTrigger, Nat.not_le.mpr hfut]
  unfold scheduleReminder
  rw [h1, hb]
  simp [hp, hk, scheduleWebNotification]

/-- C2, witness: a concrete failing native schedule returns the web timer
handle. -/
theorem native_failure_falls_back_witness :
    (scheduleReminder ⟨[], 1⟩ ⟨"r1", "t", 2000, false, Category.task, ReminderType.event⟩
        ⟨Backend.native, 0, true, false, 0, 7⟩).outcome = ScheduleOutcome.webHandle 7 :=
  (native_failure_falls_back _ _ _ rfl rfl rfl (by decide)).1

/-- C3, counterexample: with no surviving in-memory entry for the id (as
after a restart), `cancelReminder` issues no platform cancellation at all —
in particular it does not attempt the daily-range handle derived from the
id, contradicting the claim that both derived handles are always tried. -/
theorem cancel_ignores_derived_handles_cex :
    (cancelReminder Backend.native ⟨[], 1⟩ "r1").snd.nativeCancels = [] ∧
    generateDailyNotificationId "r1" ∉
      (cancelReminder Backend.native ⟨[], 1⟩ "r1").snd.nativeCancels := by
  decide

/-- C3 (amended): `cancelReminder` cancels only the handle recorded for the
id in the in-process pending map; for an id with nothing recorded it issues
no platform cancellation, clears no timer, leaves the scheduler state
unchanged, and returns without error. -/
theorem cancel_unknown_id_noop (b : Backend) (st : SchedulerState) (id : String)
    (h : lookupPending st.pendingNotifications id = Option.none) :
    cancelReminder b st id = (st, CancelEffects.none) := by
  have hf : st.pendingNotifications.find? (fun p => p.fst = id) = Option.none := by
    unfold lookupPending at h
    exact Option.map_eq_none'.mp h
  have he : erasePending st.pendingNotifications id = st.pendingNotifications := by
    unfold erasePending
    apply List.filter_eq_self.mpr
    intro a ha
    have := List.find?_eq_none.mp hf a ha
    simpa using this
  cases b <;> simp [cancelReminder, h, he, CancelEffects.none]

/-- C3, witness: cancelling an id with nothing scheduled leaves a nonempty
scheduler state untouched and produces no effects. -/
theorem cancel_unknown_id_noop_witness :
    cancelReminder Backend.native ⟨[("other", Pending.capacitor 3583)], 5⟩ "r1" =
      (⟨[("other", Pending.capacitor 3583)], 5⟩, CancelEffects.none) :=
  cancel_unknown_id_noop _ _ _ (by decide)

/-- C4, counterexample: a successful native schedule of a daily reminder
hands the platform a one-shot `schedule: { at }` request, not a repeating
every-24-hours schedule. -/
theorem daily_native_arm_one_shot_cex :
    (scheduleReminder ⟨[], 1⟩ ⟨"r1", "t", 2000, false, Category.task, ReminderType.daily⟩
        ⟨Backend.native, 0, true, true, 0, 7⟩).nativeArm =
      some (3583, NativeSchedule.once 2000) ∧
    ((scheduleReminder ⟨[], 1⟩ ⟨"r1", "t", 2000, false, Category.task, ReminderType.daily⟩
        ⟨Backend.native, 0, true, true, 0, 7⟩).nativeArm.map
          fun p => NativeSchedule.isRepeating p.snd) = some false := by
  decide

/-- C4 (amended): on the native backend, scheduling a daily reminder arms a
one-shot (non-repeating) platform alarm at the next occurrence; re-arming
subsequent occurrences is left to application code. -/
theorem daily_native_schedule_not_repeating (st : SchedulerState) (r : Reminder)
    (inp : ScheduleInput) (ht : r.rtype = ReminderType.daily)
    (hb : inp.backend = Backend.native) (hp : inp.permissionGranted = true)
    (hk : inp.platformOk = true) :
    ((scheduleReminder st r inp).nativeArm.map fun p => NativeSchedule.isRepeating p.snd) =
      some false := by
  obtain ⟨-, t, h2⟩ := scheduleReminder_daily_native st r inp ht hb hp hk
  rw [h2]
  rfl

/-- C4, witness: a concrete daily native schedule is armed non-repeating. -/
theorem daily_native_schedule_not_repeating_witness :
    ((scheduleReminder ⟨[], 1⟩ ⟨"r2", "t", 100, false, Category.personal, ReminderType.daily⟩
        ⟨Backend.native, 0, true, true, 0, 7⟩).nativeArm.map
          fun p => NativeSchedule.isRepeating p.snd) = some false :=
  daily_native_schedule_not_repeating _ _ _ rfl rfl rfl rfl

/-- C5, counterexample: a daily reminder whose stored datetime is two days
stale is scheduled by `scheduleReminder` for stored-datetime-plus-one-day —
a fire instant still in the past whose date is neither today nor tomorrow. -/
theorem daily_schedule_stale_past_cex :
    (scheduleReminder ⟨[], 1⟩ ⟨"r1", "t", 0, false, Category.task, ReminderType.daily⟩
        ⟨Backend.native, 2880, true, true, 0, 7⟩).nativeArm =
      some (3583, NativeSchedule.once 1440) ∧
    1440 < 2880 ∧ dayOf 1440 ≠ dayOf 2880 ∧ dayOf 1440 ≠ dayOf 2880 + 1 := by
  decide

/-- C5 (amended): for a daily reminder whose stored datetime falls on the
current calendar day, both the `rescheduleDaily` normalisation and the
`scheduleReminder` trigger computation preserve the configured time-of-day
and produce a fire instant strictly in the future whose date is today or
tomorrow; a stored datetime more than one day stale breaks this for
`scheduleReminder` (which only ever advances by a single day), while
`rescheduleDaily` re-stamps onto today and is safe for any stored datetime. -/
theorem daily_fire_instant_today_or_tomorrow (datetime now : Nat) :
    (timeOfDay (rescheduleDailyTime datetime now) = timeOfDay datetime ∧
     now < rescheduleDailyTime datetime now ∧
     (dayOf (rescheduleDailyTime datetime now) = dayOf now ∨
      dayOf (rescheduleDailyTime datetime now) = dayOf now + 1)) ∧
    (dayOf datetime = dayOf now →
     computeTrigger ReminderType.daily datetime now ≠ TriggerResult.refused ∧
     timeOfDay (computeTrigger ReminderType.daily datetime now).instant =
       timeOfDay datetime ∧
     now < (computeTrigger ReminderType.daily datetime now).instant ∧
     (dayOf (computeTrigger ReminderType.daily datetime now).instant = dayOf now ∨
      dayOf (computeTrigger ReminderType.daily datetime now).instant = dayOf now + 1)) := by
  constructor
  · unfold rescheduleDailyTime dayOf timeOfDay minutesPerDay
    split <;> omega
  · intro hday
    rw [computeTrigger_daily]
    unfold dayOf minutesPerDay at hday
    by_cases h1 : datetime ≤ now
    · simp only [h1, ite_true, TriggerResult.instant, ne_eq, reduceCtorEq,
        not_false_eq_true, true_and]
      unfold dayOf timeOfDay minutesPerDay
      omega
    · simp only [h1, ite_false, TriggerResult.instant, ne_eq, reduceCtorEq,
        not_false_eq_true, true_and]
      unfold dayOf minutesPerDay
      omega

/-- C5, witness: the rescheduleDaily half applied to a stale stored datetime
(09:00 two days ago, now 10:00, in minutes 540 and 3480) still lands
strictly in the future, and the scheduleReminder half applied to a same-day
reminder (09:00 stored, 15:00 now, in minutes 540 and 900) fires strictly
in the future. -/
theorem daily_fire_instant_today_or_tomorrow_witness :
    3480 < rescheduleDailyTime 540 3480 ∧
    900 < (computeTrigger ReminderType.daily 540 900).instant :=
  ⟨(daily_fire_instant_today_or_tomorrow 540 3480).1.2.1,
   ((daily_fire_instant_today_or_tomorrow 540 900).2 (by decide)).2.2.1⟩

/-- C6: scheduling an event reminder whose datetime is already in the past
returns the not-scheduled sentinel with no platform alert, no in-page
timer, no cancellation effects, an unchanged scheduler state, and no
exception. -/
theorem event_past_refused (st : SchedulerState) (r : Reminder) (inp : ScheduleInput)
    (ht : r.rtype = ReminderType.event) (hpast : r.datetime < inp.now) :
    scheduleReminder st r inp =
      { outcome := ScheduleOutcome.notScheduled, state := st,
        cancels := CancelEffects.none,
        nativeArm := Option.none, webArm := Option.none, threw := false } := by
  have h1 : computeTrigger r.rtype r.datetime inp.now = TriggerResult.refused := by
    simp [computeTrigger, ht, Nat.le_of_lt hpast]
  unfold scheduleReminder
  rw [h1]

/-- C6, witness: a concrete past event reminder is refused without any
effect. -/
theorem event_past_refused_witness :
    scheduleReminder ⟨[], 1⟩ ⟨"e1", "t", 5, false, Category.task, ReminderType.event⟩
        ⟨Backend.web, 10, true, true, 0, 3⟩ =
      { outcome := ScheduleOutcome.notScheduled, state := ⟨[], 1⟩,
        cancels := CancelEffects.none,
        nativeArm := Option.none, webArm := Option.none, threw := false } :=
  event_past_refused _ _ _ rfl (by decide)

/-- C7, counterexample: on the web backend the in-page timer is armed and
its handle returned even though permission is denied at call time — the
permission check only happens at fire time on that path. -/
theorem web_denied_arms_timer_cex :
    (scheduleReminder ⟨[], 1⟩ ⟨"r1", "t", 2000, false, Category.task, ReminderType.event⟩
        ⟨Backend.web, 0, false, true, 0, 7⟩).outcome = ScheduleOutcome.webHandle 7 ∧
    (scheduleReminder ⟨[], 1⟩ ⟨"r1", "t", 2000, false, Category.task, ReminderType.event⟩
        ⟨Backend.web, 0, false, true, 0, 7⟩).webArm = some (7, 2000) := by
  decide

/-- C7 (amended): on the native backend, when notification permission is
denied at call time, `scheduleReminder` returns the not-scheduled sentinel
and arms neither a platform alert nor an in-page timer; on the web backend
the in-page timer is armed regardless of permission. -/
theorem native_denied_not_scheduled (st : SchedulerState) (r : Reminder)
    (inp : ScheduleInput) (hb : inp.backend = Backend.native)
    (hp : inp.permissionGranted = false) (hfut : inp.now < r.datetime) :
    (scheduleReminder st r inp).outcome = ScheduleOutcome.notScheduled ∧
    (scheduleReminder st r inp).nativeArm = Option.none ∧
    (scheduleReminder st r inp).webArm = Option.none := by
  have h1 : computeTrigger r.rtype r.datetime inp.now = TriggerResult.fireAt r.datetime := by
    simp [computeTrigger, Nat.not_le.mpr hfut]
  unfold scheduleReminder
  rw [h1, hb]
  simp [hp]

/-- C7, witness: a concrete denied native schedule returns the sentinel and
arms nothing. -/
theorem native_denied_not_scheduled_witness :
    (scheduleReminder ⟨[], 1⟩ ⟨"r1", "t", 2000, false, Category.task, ReminderType.event⟩
        ⟨Backend.native, 0, false, true, 0, 7⟩).outcome = ScheduleOutcome.notScheduled :=
  (native_denied_not_scheduled _ _ _ rfl rfl (by decide)).1

/-- C8: the Daily Rollover Coordinator is idempotent per calendar day —
after one pass has persisted today's marker, a second pass on the same day
(at any later moment of that day) returns the state unchanged and performs
no store write, no cancellation and no re-arming. -/
theorem rollover_idempotent (st : AppState) (today : String) (now now' : Nat) :
    checkDailyReset (checkDailyReset st today now).fst today now' =
      ((checkDailyReset st today now).fst, ResetEffects.none) := by
  have h : (checkDailyReset st today now).fst.lastDailyReset = some today := by
    unfold checkDailyReset
    split
    · next hm => exact hm
    · rfl
  generalize hX : (checkDailyReset st today now).fst = X
  rw [hX] at h
  unfold checkDailyReset
  rw [if_pos h]

/-- C9: handles derived for daily reminders lie strictly below the base
value 100000 while every event handle lies at or above it — the two ranges
are disjoint, for any reminder ids and any scheduler counter and random
draw. -/
theorem handle_ranges_disjoint (id1 id2 : String) (counter rand : Nat) :
    notificationIdFor ReminderType.daily id1 counter rand < 100000 ∧
    100000 ≤ notificationIdFor ReminderType.event id2 counter rand := by
  constructor
  · show (stringHash id1).natAbs % 100000 < 100000
    exact Nat.mod_lt _ (by norm_num)
  · show 100000 ≤ 100000 + counter * 1000 + rand
    omega

/-- C10: toggling a reminder flips only its `completed` flag (id, title,
datetime, category and type of every stored reminder are preserved, and
reminders with other ids are untouched), and the notification side effect
is asymmetric: an uncompleted reminder being completed gets a cancel, a
completed daily reminder being uncompleted gets a `rescheduleDaily`, and a
completed event reminder being uncompleted gets no notification call. -/
theorem toggle_flips_only_completed (rs : List Reminder) (id : String) (r : Reminder)
    (hfind : rs.find? (fun x => x.id = id) = some r) :
    List.Forall₂ (fun x x' =>
        x'.id = x.id ∧ x'.title = x.title ∧ x'.datetime = x.datetime ∧
        x'.category = x.category ∧ x'.rtype = x.rtype ∧
        (x.id = id → x'.completed = !x.completed) ∧
        (x.id ≠ id → x'.completed = x.completed))
      rs (toggleReminder rs id).fst ∧
    (r.completed = false → (toggleReminder rs id).snd = ToggleAction.cancelFor id) ∧
    (r.completed = true → r.rtype = ReminderType.daily →
       (toggleReminder rs id).snd = ToggleAction.rescheduleFor id) ∧
    (r.completed = true → r.rtype = ReminderType.event →
       (toggleReminder rs id).snd = ToggleAction.noAction) := by
  unfold toggleReminder
  rw [hfind]
  refine ⟨?_, ?_, ?_, ?_⟩
  · apply forall2_map_self
    intro x
    by_cases hx : x.id = id <;> simp [hx]
  · intro hc; simp [hc]
  · intro hc hd; simp [hc, hd]
  · intro hc hd; simp [hc, hd]

/-- C10, witness: toggling an uncompleted daily reminder requests a cancel
of its notification. -/
theorem toggle_flips_only_completed_witness :
    (toggleReminder [⟨"a", "t", 0, false, Category.task, ReminderType.daily⟩] "a").snd =
      ToggleAction.cancelFor "a" :=
  (toggle_flips_only_completed [⟨"a", "t", 0, false, Category.task, ReminderType.daily⟩]
      "a" ⟨"a", "t", 0, false, Category.task, ReminderType.daily⟩ (by decide)).2.1 rfl

end MrJk
